import Mathlib

/-!
Shallow embedding of the booking core of the Car-Rental-App-Backend repository:
the Booking data model (src/models/Booking.js), the booking lifecycle handlers
(src/routes/bookings.js: POST /, PATCH /:bookingId, PATCH /:bookingId/cancel,
PATCH /:bookingId/end), the read-side billing formatting of the list/detail
views, and the revenue aggregation of src/routes/dashboard.js and the monthly
report route.

Modelling conventions:
- JavaScript numbers are embedded as `Rat` (the spec treats the billing
  arithmetic as exact percentage arithmetic).
- Dates (`new Date(...)` values compared with `$lte`/`$gte`) are embedded as
  `Int` millisecond timestamps; only their ordering is used by the code.
- Mongo ObjectIds are embedded as `Nat`.
- A request body field that may be absent is an `Option`; JavaScript
  truthiness of a field value (`!x`) is embedded by the `truthy*` helpers
  (absent, `0`, and `""` are falsy).
- Mongoose strips `undefined` values from update objects, so a ternary that
  produces `undefined` in `findByIdAndUpdate` leaves the stored field
  unchanged; this is embedded explicitly in `applyEdit`.
- Error responses are embedded as a status code plus an `ErrMsg` constructor;
  each constructor's doc comment records the exact message string of the
  source.
- The HH:mm time-of-day formatting of `endTime` (`toTimeString().slice(0,5)`),
  image/report rendering, and populated display joins are not modelled; no
  claim depends on them.
-/

namespace CarRental

/-- Booking status enum of BookingSchema (src/models/Booking.js lines 133-137):
`['active', 'completed', 'cancelled']`, default `'active'`. -/
inductive Status where
  | active
  | completed
  | cancelled
deriving DecidableEq

/-- Trip type enum of BookingSchema (src/models/Booking.js lines 27-31):
`['withincity', 'outofcity']`. -/
inductive TripType where
  | withincity
  | outofcity
deriving DecidableEq

/-- JavaScript truthiness of an optional string field: absent and `""` are
falsy. -/
def truthyS : Option String → Bool
  | none => false
  | some s => s ≠ ""

/-- JavaScript truthiness of an optional numeric field: absent and `0` are
falsy. -/
def truthyN : Option Rat → Bool
  | none => false
  | some q => q ≠ 0

/-- Truthiness of an optional id field (ObjectIds travel as non-empty strings;
presence is what the handlers test). -/
def truthyId : Option Nat → Bool
  | none => false
  | some _ => true

/-- Truthiness of an optional date field (dates travel as non-empty strings;
presence is what the handlers test). -/
def truthyD : Option Int → Bool
  | none => false
  | some _ => true

/-- The anchored regex `/^([01]?[0-9]|2[0-3]):[0-5][0-9]$/` used by the
`tripStartTime` validator of BookingSchema (src/models/Booking.js lines
35-40): one digit `0-9` or `0`/`1` plus a digit or `2` plus `0-3`, a colon,
then `0-5` and a digit. -/
def isHHMM (s : String) : Bool :=
  match s.toList with
  | [h, ':', m1, m2] =>
      ('0' ≤ h && h ≤ '9') && ('0' ≤ m1 && m1 ≤ '5') && ('0' ≤ m2 && m2 ≤ '9')
  | [h1, h2, ':', m1, m2] =>
      (((h1 = '0' || h1 = '1') && ('0' ≤ h2 && h2 ≤ '9')) ||
        (h1 = '2' && ('0' ≤ h2 && h2 ≤ '3'))) &&
      ('0' ≤ m1 && m1 ≤ '5') && ('0' ≤ m2 && m2 ≤ '9')
  | _ => false

/-- A stored Booking document (BookingSchema, src/models/Booking.js), with the
post-completion and post-cancellation fields the lifecycle handlers write. -/
structure Booking where
  id : Nat := 0
  carId : Nat := 0
  customerId : Nat := 0
  driverId : Option Nat := none
  tripType : TripType := .withincity
  cityName : Option String := none
  startDate : Int := 0
  endDate : Int := 0
  meterReading : Rat := 0
  totalBill : Rat := 0
  advancePaid : Rat := 0
  discountPercentage : Rat := 0
  discountReference : Option String := none
  bookedBy : Nat := 0
  status : Status := .active
  tripStartTime : String := "12:00"
  tripDescription : Option String := none
  driverPreference : String := "self"
  customerLicenseNumber : Option String := none
  finalMeterReading : Option Rat := none
  additionalCharges : Rat := 0
  additionalChargesDescription : String := ""
  remainingPaymentReceived : Rat := 0
  completedAt : Option Int := none
  completedBy : Option Nat := none
  cancellationReason : Option String := none
  cancelledAt : Option Int := none
  cancelledBy : Option Nat := none
deriving DecidableEq

/-- A Driver document: only the `available` flag (and identity) take part in
the modelled claims (src/models/Driver schema in src/unnamed/part_000). -/
structure Driver where
  id : Nat := 0
  available : Bool := true
deriving DecidableEq

/-- A Customer document (src/models/Customer.js): looked up by phone-or-ID on
every booking creation. -/
structure Customer where
  id : Nat := 0
  fullName : String := ""
  phoneNumber : String := ""
  idCardNumber : String := ""
  careOf : Option String := none
  bookingCount : Nat := 0
  lastBookingDate : Option Int := none
deriving DecidableEq

/-- The persistent store the handlers read and write: car ids, drivers,
customers and bookings, plus fresh-id counters for inserted documents. -/
structure St where
  cars : List Nat := []
  drivers : List Driver := []
  customers : List Customer := []
  bookings : List Booking := []
  nextBookingId : Nat := 1
  nextCustomerId : Nat := 1
deriving DecidableEq

/-- The date-range conjunct of the availability query
(src/models/Booking.js lines 171-176): `startDate: { $lte: endDate },
endDate: { $gte: startDate }` — closed-interval overlap. -/
def overlapsRange (b : Booking) (s e : Int) : Bool :=
  decide (b.startDate ≤ e) && decide (s ≤ b.endDate)

/-- One existing booking matches the availability query
(src/models/Booking.js lines 168-182): same car, status exactly `'active'`,
not the excluded booking, and date ranges overlapping. -/
def availQueryMatch (carId : Nat) (s e : Int) (exclude : Option Nat)
    (b : Booking) : Bool :=
  decide (b.carId = carId) && decide (b.status = Status.active) &&
    (match exclude with
     | some x => decide (b.id ≠ x)
     | none => true) &&
    overlapsRange b s e

/-- `BookingSchema.statics.checkAvailability` (src/models/Booking.js lines
167-186): `findOne` the query and return the negation of its existence. -/
def checkAvailability (bookings : List Booking) (carId : Nat) (s e : Int)
    (exclude : Option Nat) : Bool :=
  !(bookings.any (availQueryMatch carId s e exclude))

/-- Availability as the specification words it (spec section 4.1 / claim C1):
a conflicting booking is one on the same vehicle, other than the excluded one,
whose status is NOT `'cancelled'`, with closed-interval overlap. Written from
the claim, for comparison against `checkAvailability`. -/
def specAvailable (bookings : List Booking) (carId : Nat) (s e : Int)
    (exclude : Option Nat) : Bool :=
  !(bookings.any fun b =>
      decide (b.carId = carId) && decide (b.status ≠ Status.cancelled) &&
        (match exclude with
         | some x => decide (b.id ≠ x)
         | none => true) &&
        overlapsRange b s e)

/-- The error messages the modelled handlers return. Each constructor's doc
comment records the exact response string of the source. -/
inductive ErrMsg where
  /-- "All required fields must be provided" (bookings.js line 39) -/
  | allRequiredFields
  /-- "Car not found" (bookings.js line 45) -/
  | carNotFound
  /-- "Driver ID is required when driver preference is 'driver'"
  (bookings.js lines 51 and 566) -/
  | driverIdRequired
  /-- "Driver not found" (bookings.js line 55) -/
  | driverNotFound
  /-- "Car is not available for selected dates" (bookings.js line 67) -/
  | carNotAvailable
  /-- "City name is required for out-of-city trips" (bookings.js line 72) -/
  | cityNameRequired
  /-- A Mongoose ValidationError surfaced as `error.message`
  (bookings.js lines 169-171) -/
  | validationError
  /-- "Booking not found" (bookings.js lines 553, 669, 770) -/
  | bookingNotFound
  /-- "License number is required when driver preference is 'self'"
  (bookings.js line 573) -/
  | licenseRequired
  /-- "Only active bookings can be edited" (bookings.js line 559) -/
  | onlyActiveEdit
  /-- "Only active bookings can be cancelled" (bookings.js line 675) -/
  | onlyActiveCancel
  /-- "Only active bookings can be ended" (bookings.js line 776) -/
  | onlyActiveEnd
  /-- "Invalid end time format" (bookings.js line 749) -/
  | invalidEndTime
  /-- "End time and final meter reading are required" (bookings.js line 759) -/
  | endFieldsRequired
  /-- "Final meter reading cannot be less than initial meter reading"
  (bookings.js line 783) -/
  | finalMeterLess
deriving DecidableEq

/-- The request body of POST / (bookings.js lines 12-32); every field may be
absent. -/
structure CreateRequest where
  carId : Option Nat := none
  driverId : Option Nat := none
  tripType : Option String := none
  cityName : Option String := none
  startDate : Option Int := none
  endDate : Option Int := none
  meterReading : Option Rat := none
  totalBill : Option Rat := none
  advancePaid : Option Rat := none
  discountPercentage : Option Rat := none
  discountReference : Option String := none
  customerName : Option String := none
  cellNumber : Option String := none
  careOf : Option String := none
  idCardNumber : Option String := none
  tripStartTime : Option String := none
  tripDescription : Option String := none
  driverPreference : Option String := none
  customerLicenseNumber : Option String := none
deriving DecidableEq

/-- The required-field truthiness check of POST / (bookings.js lines 35-40):
`!carId || !tripType || !startDate || !endDate || !meterReading ||
!totalBill || !advancePaid || !customerName || !cellNumber ||
!idCardNumber || !tripStartTime || !driverPreference`, negated. -/
def requiredFieldsPresent (r : CreateRequest) : Bool :=
  truthyId r.carId && truthyS r.tripType && truthyD r.startDate &&
    truthyD r.endDate && truthyN r.meterReading && truthyN r.totalBill &&
    truthyN r.advancePaid && truthyS r.customerName && truthyS r.cellNumber &&
    truthyS r.idCardNumber && truthyS r.tripStartTime &&
    truthyS r.driverPreference

/-- The validation BookingSchema runs on `save()` (src/models/Booking.js):
min/max bounds on the money fields, `advancePaid ≤ totalBill`,
`endDate ≥ startDate`, `cityName` required (non-empty) for `outofcity`,
`driverId` required when `driverPreference = 'driver'`, `discountReference`
required when the discount is positive, the `driverPreference` enum, and the
HH:mm format of `tripStartTime`. -/
def bookingValid (b : Booking) : Bool :=
  decide (0 ≤ b.totalBill) &&
    decide (0 ≤ b.advancePaid) && decide (b.advancePaid ≤ b.totalBill) &&
    decide (0 ≤ b.discountPercentage) && decide (b.discountPercentage ≤ 100) &&
    decide (b.startDate ≤ b.endDate) &&
    (if b.tripType = TripType.outofcity then truthyS b.cityName else true) &&
    (if b.driverPreference = "driver" then truthyId b.driverId else true) &&
    (if 0 < b.discountPercentage then truthyS b.discountReference else true) &&
    (decide (b.driverPreference = "driver") ||
      decide (b.driverPreference = "self")) &&
    isHHMM b.tripStartTime

/-- The customer upsert of POST / (bookings.js lines 75-103): `findOne` by
phone-or-ID; create with `bookingCount: 1` on first sight, otherwise bump
`bookingCount`, refresh `lastBookingDate`, and overwrite name/careOf in
place. Returns the saved customer and the updated store. -/
def upsertCustomer (st : St) (name cell : String) (careOf : Option String)
    (idc : String) (now : Int) : Customer × St :=
  match st.customers.find?
      (fun c => decide (c.phoneNumber = cell) || decide (c.idCardNumber = idc)) with
  | some c =>
      let c2 : Customer :=
        { c with bookingCount := c.bookingCount + 1,
                 lastBookingDate := some now,
                 fullName := name,
                 careOf := careOf }
      (c2, { st with customers :=
        st.customers.map (fun x => if x.id = c.id then c2 else x) })
  | none =>
      let c2 : Customer :=
        { id := st.nextCustomerId, fullName := name, phoneNumber := cell,
          idCardNumber := idc, careOf := careOf, bookingCount := 1,
          lastBookingDate := some now }
      (c2, { st with customers := st.customers ++ [c2],
                     nextCustomerId := st.nextCustomerId + 1 })

/-- Outcome of POST /: the created booking and its (upserted) customer, or an
error response; the store after the handler ran is threaded alongside. -/
inductive CreateOutcome where
  | created (booking : Booking) (customer : Customer)
  | clientError (code : Nat) (msg : ErrMsg)
deriving DecidableEq

/-- The new Booking document POST / constructs (bookings.js lines 106-125).
Note the spelling split: the stored `tripType`/`cityName` test the request
value against `"out-of-city"`, while the city-name guard earlier in the
handler tested `"outofcity"`. -/
def buildNewBooking (r : CreateRequest) (custId bookingId userId : Nat) :
    Booking :=
  { id := bookingId
    carId := r.carId.getD 0
    customerId := custId
    driverId := if r.driverPreference = some "driver" then r.driverId else none
    tripType := if r.tripType = some "out-of-city" then .outofcity
      else .withincity
    cityName := if r.tripType = some "out-of-city" then r.cityName else none
    startDate := r.startDate.getD 0
    endDate := r.endDate.getD 0
    meterReading := r.meterReading.getD 0
    totalBill := r.totalBill.getD 0
    advancePaid := r.advancePaid.getD 0
    discountPercentage := r.discountPercentage.getD 0
    discountReference := if 0 < r.discountPercentage.getD 0
      then r.discountReference else none
    bookedBy := userId
    status := .active
    tripStartTime := r.tripStartTime.getD ""
    tripDescription := r.tripDescription
    driverPreference := r.driverPreference.getD ""
    customerLicenseNumber := if r.driverPreference = some "self"
      then r.customerLicenseNumber else none }

/-- `Driver.findByIdAndUpdate(id, { available: v })` (bookings.js lines
130-135, 685-690, 804-809): set the flag on the matching driver, no-op when
the id resolves to no driver. -/
def setDriverAvailable (drivers : List Driver) (i : Nat) (v : Bool) :
    List Driver :=
  drivers.map fun d => if d.id = i then { id := d.id, available := v } else d

/-- The save step of POST / (`newBooking.save()` and the driver-availability
flip, bookings.js lines 127-135): Mongoose validates the constructed
document; on failure the handler surfaces the ValidationError (the customer
upsert already persisted); on success the booking is appended and, when the
preference is `'driver'`, the assigned driver is marked unavailable. -/
def saveNewBooking (st1 : St) (r : CreateRequest) (nb : Booking)
    (cust : Customer) : CreateOutcome × St :=
  if bookingValid nb then
    (.created nb cust,
      if r.driverPreference = some "driver" then
        { st1 with
          bookings := st1.bookings ++ [nb]
          nextBookingId := st1.nextBookingId + 1
          drivers := setDriverAvailable st1.drivers (r.driverId.getD 0) false }
      else
        { st1 with
          bookings := st1.bookings ++ [nb]
          nextBookingId := st1.nextBookingId + 1 })
  else (.clientError 400 .validationError, st1)

/-- The POST / handler (bookings.js lines 10-174): required-field truthiness
check, car existence, driver-id presence and existence when the preference is
`'driver'`, availability over the requested range, city-name guard for
`tripType === "outofcity"`, customer upsert, booking construction and save,
then the driver-availability flip. -/
def createBooking (st : St) (r : CreateRequest) (userId : Nat) (now : Int) :
    CreateOutcome × St :=
  if ¬ requiredFieldsPresent r then
    (.clientError 400 .allRequiredFields, st)
  else if ¬ st.cars.contains (r.carId.getD 0) then
    (.clientError 404 .carNotFound, st)
  else if r.driverPreference = some "driver" ∧ ¬ truthyId r.driverId then
    (.clientError 400 .driverIdRequired, st)
  else if r.driverPreference = some "driver" ∧
      ¬ st.drivers.any (fun d => decide (d.id = r.driverId.getD 0)) then
    (.clientError 404 .driverNotFound, st)
  else if ¬ checkAvailability st.bookings (r.carId.getD 0)
      (r.startDate.getD 0) (r.endDate.getD 0) none then
    (.clientError 400 .carNotAvailable, st)
  else if r.tripType = some "outofcity" ∧ ¬ truthyS r.cityName then
    (.clientError 400 .cityNameRequired, st)
  else
    let up := upsertCustomer st (r.customerName.getD "") (r.cellNumber.getD "")
      r.careOf (r.idCardNumber.getD "") now
    saveNewBooking up.2 r (buildNewBooking r up.1.id up.2.nextBookingId userId)
      up.1

/-- `Booking.findById` over the modelled store. -/
def getBooking (st : St) (bookingId : Nat) : Option Booking :=
  st.bookings.find? (fun b => decide (b.id = bookingId))

/-- Replace the stored booking with the given id (the effect of saving or
updating that document). -/
def putBooking (st : St) (bookingId : Nat) (b : Booking) : St :=
  { st with bookings :=
      st.bookings.map (fun x => if x.id = bookingId then b else x) }

/-- The JavaScript `request || stored` merge for a numeric field of the PATCH
update object (bookings.js lines 585-588): a supplied `0` is falsy and falls
back to the stored value. -/
def jsOrN (v : Option Rat) (old : Rat) : Rat :=
  match v with
  | some x => if x = 0 then old else x
  | none => old

/-- The JavaScript `request || stored` merge for a required string field:
a supplied `""` is falsy and falls back to the stored value. -/
def jsOrS (v : Option String) (old : String) : String :=
  match v with
  | some x => if x = "" then old else x
  | none => old

/-- The JavaScript `request || stored` merge for an optional string field. -/
def jsOrOS (v : Option String) (old : Option String) : Option String :=
  match v with
  | some x => if x = "" then old else some x
  | none => old

/-- The request body of PATCH /:bookingId (bookings.js lines 533-548). -/
structure EditRequest where
  tripType : Option String := none
  cityName : Option String := none
  startDate : Option Int := none
  endDate : Option Int := none
  meterReading : Option Rat := none
  totalBill : Option Rat := none
  advancePaid : Option Rat := none
  discountPercentage : Option Rat := none
  discountReference : Option String := none
  tripStartTime : Option String := none
  tripDescription : Option String := none
  driverPreference : Option String := none
  driverId : Option Nat := none
  customerLicenseNumber : Option String := none
deriving DecidableEq

/-- The `findByIdAndUpdate` update object of PATCH /:bookingId (bookings.js
lines 578-595), with Mongoose stripping `undefined` values:
`tripType` is always written (`'withincity'` only when the request says
`'within-city'`, `'outofcity'` otherwise); `cityName` is written only when
the request tripType is `'out-of-city'` and a city value is present; the
scalar fields use `request || stored`; `driverId` / `customerLicenseNumber`
are written only when the request switches the preference to `'driver'` /
`'self'` respectively, and retained otherwise. -/
def applyEdit (b : Booking) (r : EditRequest) : Booking :=
  { b with
    tripType := if r.tripType = some "within-city" then TripType.withincity
      else TripType.outofcity
    cityName := if r.tripType = some "out-of-city" then
        (match r.cityName with
         | some c => some c
         | none => b.cityName)
      else b.cityName
    startDate := r.startDate.getD b.startDate
    endDate := r.endDate.getD b.endDate
    meterReading := jsOrN r.meterReading b.meterReading
    totalBill := jsOrN r.totalBill b.totalBill
    advancePaid := jsOrN r.advancePaid b.advancePaid
    discountPercentage := jsOrN r.discountPercentage b.discountPercentage
    discountReference := jsOrOS r.discountReference b.discountReference
    tripStartTime := jsOrS r.tripStartTime b.tripStartTime
    tripDescription := jsOrOS r.tripDescription b.tripDescription
    driverPreference := jsOrS r.driverPreference b.driverPreference
    driverId := if r.driverPreference = some "driver" then
        (match r.driverId with
         | some d => some d
         | none => b.driverId)
      else b.driverId
    customerLicenseNumber := if r.driverPreference = some "self" then
        (match r.customerLicenseNumber with
         | some c => some c
         | none => b.customerLicenseNumber)
      else b.customerLicenseNumber }

/-- Outcome of PATCH /:bookingId: the updated booking together with the
`billing.remaining` figure of the response
(`updatedBooking.totalBill - updatedBooking.advancePaid`, bookings.js line
639), or an error. -/
inductive EditOutcome where
  | updated (booking : Booking) (billingRemaining : Rat)
  | clientError (code : Nat) (msg : ErrMsg)
deriving DecidableEq

/-- The PATCH /:bookingId handler (bookings.js lines 530-655): find the
booking, require status `'active'`, guard the driver-id / license fields when
the preference is switched, then apply the merge update. No availability
check is performed. -/
def editBooking (st : St) (bookingId : Nat) (r : EditRequest) :
    EditOutcome × St :=
  match getBooking st bookingId with
  | none => (.clientError 404 .bookingNotFound, st)
  | some b =>
    if b.status ≠ Status.active then
      (.clientError 400 .onlyActiveEdit, st)
    else if r.driverPreference = some "driver" ∧ ¬ truthyId r.driverId then
      (.clientError 400 .driverIdRequired, st)
    else if r.driverPreference = some "self" ∧
        ¬ truthyS r.customerLicenseNumber then
      (.clientError 400 .licenseRequired, st)
    else
      let b2 := applyEdit b r
      (.updated b2 (b2.totalBill - b2.advancePaid), putBooking st bookingId b2)

/-- Outcome of PATCH /:bookingId/cancel: the cancelled booking plus the
`billing.remaining` and `billing.refundAmount` figures of the response
(bookings.js lines 694-724), or an error. -/
inductive CancelOutcome where
  | cancelled (booking : Booking) (billingRemaining refundAmount : Rat)
  | clientError (code : Nat) (msg : ErrMsg)
deriving DecidableEq

/-- The PATCH /:bookingId/cancel handler (bookings.js lines 658-732): find
the booking, require status `'active'`, set status/reason/timestamp/actor,
flip the assigned driver back to available, save, and report the discounted
billing with `refundAmount = advancePaid`. -/
def cancelBooking (st : St) (bookingId : Nat) (reason : Option String)
    (userId : Nat) (now : Int) : CancelOutcome × St :=
  match getBooking st bookingId with
  | none => (.clientError 404 .bookingNotFound, st)
  | some b =>
    if b.status ≠ Status.active then
      (.clientError 400 .onlyActiveCancel, st)
    else
      let b2 := { b with
        status := Status.cancelled
        cancellationReason := some (jsOrS reason "No reason provided")
        cancelledAt := some now
        cancelledBy := some userId }
      let st1 := if b.driverPreference = "driver" then
          { st with drivers :=
              setDriverAvailable st.drivers (b.driverId.getD 0) true }
        else st
      let st2 := putBooking st1 bookingId b2
      let discountAmount := b2.totalBill * b2.discountPercentage / 100
      let discountedTotal := b2.totalBill - discountAmount
      (.cancelled b2 (discountedTotal - b2.advancePaid) b2.advancePaid, st2)

/-- The request body of PATCH /:bookingId/end (bookings.js lines 738-744):
`endTime` is `none` when `new Date(req.body.endTime)` is invalid, otherwise
the parsed timestamp; `additionalCharges` and `remainingPayment` default
to 0. -/
structure EndRequest where
  endTime : Option Int := none
  finalMeterReading : Option Rat := none
  additionalCharges : Rat := 0
  additionalChargesDescription : String := ""
  remainingPayment : Rat := 0
deriving DecidableEq

/-- The billing block of the completion response (bookings.js lines 838-849).
-/
structure EndBilling where
  updatedTotalBill : Rat
  discountAmount : Rat
  discountedTotal : Rat
  finalRemainingBalance : Rat
deriving DecidableEq

/-- Outcome of PATCH /:bookingId/end: the completed booking plus the billing
block of the response, or an error. -/
inductive EndOutcome where
  | completed (booking : Booking) (billing : EndBilling)
  | clientError (code : Nat) (msg : ErrMsg)
deriving DecidableEq

/-- The PATCH /:bookingId/end handler (bookings.js lines 735-861): reject an
unparseable end time, require a truthy final meter reading, find the booking,
require status `'active'`, require `finalMeterReading ≥ meterReading`, add
the additional charges to `totalBill`, reapply the discount, store the
completed booking, and flip the assigned driver back to available. -/
def endBooking (st : St) (bookingId : Nat) (r : EndRequest) (userId : Nat)
    (now : Int) : EndOutcome × St :=
  match r.endTime with
  | none => (.clientError 400 .invalidEndTime, st)
  | some _ =>
    if ¬ truthyN r.finalMeterReading then
      (.clientError 400 .endFieldsRequired, st)
    else
      match getBooking st bookingId with
      | none => (.clientError 404 .bookingNotFound, st)
      | some b =>
        if b.status ≠ Status.active then
          (.clientError 400 .onlyActiveEnd, st)
        else if r.finalMeterReading.getD 0 < b.meterReading then
          (.clientError 400 .finalMeterLess, st)
        else
          let updatedTotalBill := b.totalBill + r.additionalCharges
          let discountAmount := updatedTotalBill * b.discountPercentage / 100
          let discountedTotal := updatedTotalBill - discountAmount
          let finalRemainingAmount :=
            discountedTotal - b.advancePaid - r.remainingPayment
          let b2 := { b with
            status := Status.completed
            finalMeterReading := r.finalMeterReading
            totalBill := updatedTotalBill
            additionalCharges := r.additionalCharges
            additionalChargesDescription := r.additionalChargesDescription
            remainingPaymentReceived := r.remainingPayment
            completedAt := some now
            completedBy := some userId }
          let st1 := if b.driverPreference = "driver" then
              { st with drivers :=
                  setDriverAvailable st.drivers (b.driverId.getD 0) true }
            else st
          let st2 := putBooking st1 bookingId b2
          (.completed b2
            ⟨updatedTotalBill, discountAmount, discountedTotal,
              finalRemainingAmount⟩, st2)

/-- The `remainingBalance` virtual of BookingSchema (src/models/Booking.js
lines 154-158): discount amount, discounted total, minus the advance. Used by
the create response (`newBooking.remainingBalance`, bookings.js line 147) and
the status-filtered list (`booking.remainingBalance`, line 293). -/
def remainingBalance (b : Booking) : Rat :=
  let discountAmount := b.totalBill * b.discountPercentage / 100
  let discountedTotal := b.totalBill - discountAmount
  discountedTotal - b.advancePaid

/-- The `discountedTotalAmount` virtual of BookingSchema
(src/models/Booking.js lines 161-164). -/
def discountedTotalAmount (b : Booking) : Rat :=
  b.totalBill - b.totalBill * b.discountPercentage / 100

/-- The billing derivation as the specification words it (spec section 4.2 /
claim C4): `discountAmount = totalBill * discountPercentage / 100`,
`discountedTotal = totalBill - discountAmount`,
`remainingBalance = discountedTotal - advancePaid`. Written from the claim,
for comparison against each formatting site. -/
def specRemainingBalance (b : Booking) : Rat :=
  (b.totalBill - b.totalBill * b.discountPercentage / 100) - b.advancePaid

/-- `remainingAmount` of the GET / list formatting (bookings.js line 209):
`booking.totalBill - booking.advancePaid` — no discount applied. -/
def listRemainingAmount (b : Booking) : Rat :=
  b.totalBill - b.advancePaid

/-- `remainingAmount` of the GET /active list formatting (bookings.js line
340): `booking.totalBill - booking.advancePaid` — no discount applied. -/
def activeListRemainingAmount (b : Booking) : Rat :=
  b.totalBill - b.advancePaid

/-- `remainingAmount` of the GET /status/:status list formatting
(bookings.js line 293): the `remainingBalance` virtual. -/
def statusListRemainingAmount (b : Booking) : Rat :=
  remainingBalance b

/-- `billing.remaining` of the GET /:bookingId/details view (bookings.js
lines 384-430): inline discount amount and discounted total, minus the
advance. -/
def detailsBillingRemaining (b : Booking) : Rat :=
  let discountAmount := b.totalBill * b.discountPercentage / 100
  let discountedTotal := b.totalBill - discountAmount
  discountedTotal - b.advancePaid

/-- `billing.remaining` of the GET /:bookingId/edit view (bookings.js lines
479-514): inline discount amount and discounted total, minus the advance. -/
def editViewBillingRemaining (b : Booking) : Rat :=
  let discountAmount := b.totalBill * b.discountPercentage / 100
  let discountedTotal := b.totalBill - discountAmount
  discountedTotal - b.advancePaid

/-- Per-booking revenue of the aggregation endpoints (dashboard.js lines
32-35 and the monthly report):
`totalBill * (100 - (discountPercentage || 0)) / 100`. -/
def revenue (b : Booking) : Rat :=
  b.totalBill * (100 - b.discountPercentage) / 100

/-- `reduce((sum, b) => sum + revenue(b), 0)` over a fetched booking list. -/
def sumRevenue (bs : List Booking) : Rat :=
  (bs.map revenue).sum

/-- The `startDate: { $gte: lo, $lte: hi }` window filter the aggregation
endpoints fetch bookings with. -/
def inWindow (lo hi : Int) (b : Booking) : Bool :=
  decide (lo ≤ b.startDate) && decide (b.startDate ≤ hi)

/-- `currentRevenue` of GET /dashboard (dashboard.js lines 19-21 and 32-33):
the revenue sum over ALL bookings with `startDate ≥ monthStart` — no status
filter. -/
def dashboardCurrentRevenue (bs : List Booking) (monthStart : Int) : Rat :=
  sumRevenue (bs.filter fun b => decide (monthStart ≤ b.startDate))

/-- `lastMonthRevenue` of GET /dashboard (dashboard.js lines 24-29 and
34-35), and likewise each bucket of its trailing-6-month `revenueData` series
(lines 80-95): the revenue sum over ALL bookings whose `startDate` lies in
the closed window — no status filter. -/
def dashboardWindowRevenue (bs : List Booking) (lo hi : Int) : Rat :=
  sumRevenue (bs.filter (inWindow lo hi))

/-- `totalRevenue` of the monthly report (GET /monthly, the report route at
bookings.js lines 1674-1686): fetch the window, drop cancelled bookings, sum
the revenue. -/
def monthlyReportTotalRevenue (bs : List Booking) (lo hi : Int) : Rat :=
  sumRevenue ((bs.filter (inWindow lo hi)).filter
    fun b => decide (b.status ≠ Status.cancelled))

/-- Revenue rollup as the specification words it (spec section 4.3 / claim
C8): the sum of `totalBill * (100 - discountPercentage) / 100` over exactly
the non-cancelled bookings of the given scope. Written from the claim, for
comparison against the endpoint rollups. -/
def specTotalRevenue (scope : List Booking) : Rat :=
  sumRevenue (scope.filter fun b => decide (b.status ≠ Status.cancelled))

/-- The `available` flag of the driver with the given id, when one exists. -/
def driverAvailable (st : St) (i : Nat) : Option Bool :=
  (st.drivers.find? (fun d => decide (d.id = i))).map Driver.available

/-! ### Helper lemmas -/

/-- Replacing the found booking by id makes the replacement the booking a
subsequent lookup of that id finds. -/
theorem find?_map_replace (l : List Booking) (i : Nat) (b b2 : Booking)
    (h : l.find? (fun x => decide (x.id = i)) = some b) (hb2 : b2.id = i) :
    (l.map fun x => if x.id = i then b2 else x).find?
      (fun x => decide (x.id = i)) = some b2 := by
  induction l with
  | nil => simp at h
  | cons a t ih =>
    by_cases ha : a.id = i
    · simp only [List.map_cons, if_pos ha]
      exact List.find?_cons_of_pos _ (by simp [hb2])
    · rw [List.find?_cons_of_neg _ (by simp [ha])] at h
      simp only [List.map_cons, if_neg ha]
      rw [List.find?_cons_of_neg _ (by simp [ha])]
      exact ih h

/-- `getBooking` after `putBooking` of the found id returns the stored
replacement. -/
theorem getBooking_putBooking (st : St) (i : Nat) (b b2 : Booking)
    (h : getBooking st i = some b) (hb2 : b2.id = i) :
    getBooking (putBooking st i b2) i = some b2 :=
  find?_map_replace st.bookings i b b2 h hb2

/-- A found booking carries the id it was looked up by. -/
theorem getBooking_id (st : St) (i : Nat) (b : Booking)
    (h : getBooking st i = some b) : b.id = i := by
  have := List.find?_some h
  simpa using this

/-- `setDriverAvailable` rewrites exactly the flag of the driver a lookup of
that id finds. -/
theorem find?_setDriverAvailable (l : List Driver) (i : Nat) (v : Bool) :
    (setDriverAvailable l i v).find? (fun d => decide (d.id = i)) =
      (l.find? (fun d => decide (d.id = i))).map
        (fun d => { id := d.id, available := v }) := by
  induction l with
  | nil => simp [setDriverAvailable]
  | cons a t ih =>
    by_cases ha : a.id = i
    · simp only [setDriverAvailable, List.map_cons, if_pos ha]
      rw [List.find?_cons_of_pos _ (by simp [ha]),
        List.find?_cons_of_pos _ (by simp [ha])]
      rfl
    · simp only [setDriverAvailable, List.map_cons, if_neg ha]
      rw [List.find?_cons_of_neg _ (by simp [ha]),
        List.find?_cons_of_neg _ (by simp [ha])]
      exact ih

/-- The `available` flag after `setDriverAvailable`, for a driver that
exists. -/
theorem driverAvailable_setDriverAvailable (drivers : List Driver)
    (i : Nat) (v : Bool)
    (hex : (drivers.find? (fun d => decide (d.id = i))).isSome) :
    ((setDriverAvailable drivers i v).find?
        (fun d => decide (d.id = i))).map Driver.available = some v := by
  rw [find?_setDriverAvailable]
  obtain ⟨d, hd2⟩ := Option.isSome_iff_exists.mp hex
  rw [hd2]
  rfl

/-! ### Concrete fixtures for counterexamples and witnesses -/

/-- A completed booking on car 5 over the days 0..10. -/
def bC1 : Booking :=
  { id := 1, carId := 5, startDate := 0, endDate := 10,
    status := Status.completed }

/-- An active booking on car 7 over the days 1..5. -/
def bTouch : Booking :=
  { id := 1, carId := 7, startDate := 1, endDate := 5,
    status := Status.active }

/-! ### C1 — availability checker contract -/

/-- C1, counterexample: the claim says a booking whose status is not
`'cancelled'` blocks the range, but `checkAvailability` only matches status
exactly `'active'`: with a single overlapping COMPLETED booking on car 5 the
checker reports available, while a conflicting non-cancelled booking exists
(so the claimed iff is false at this input, as is the spec-worded
`specAvailable`). -/
theorem C1_counterexample :
    checkAvailability [bC1] 5 3 7 none = true ∧
      specAvailable [bC1] 5 3 7 none = false ∧
      bC1.carId = 5 ∧ bC1.status ≠ Status.cancelled ∧
      bC1.startDate ≤ 7 ∧ (3 : Int) ≤ bC1.endDate := by
  decide

/-- C1, amended: `checkAvailability(v, start, end, x)` returns true iff no
booking on `v` other than `x` whose status is exactly `'active'` satisfies
`s ≤ end ∧ e ≥ start` over closed intervals; a vehicle id with no bookings
against it (including a nonexistent vehicle) yields available; and ranges
touching at a single shared endpoint conflict (an active booking over days
1..5 blocks the candidate 5..10 on the same car). -/
theorem C1_checkAvailability_contract :
    (∀ (bs : List Booking) (v : Nat) (s e : Int) (x : Option Nat),
      checkAvailability bs v s e x = true ↔
        ∀ b ∈ bs, ¬(b.carId = v ∧ b.status = Status.active ∧
          (∀ xid, x = some xid → b.id ≠ xid) ∧
          b.startDate ≤ e ∧ s ≤ b.endDate)) ∧
    (∀ (bs : List Booking) (v : Nat) (s e : Int) (x : Option Nat),
      (∀ b ∈ bs, b.carId ≠ v) → checkAvailability bs v s e x = true) ∧
    checkAvailability [bTouch] 7 5 10 none = false := by
  refine ⟨?_, ?_, by decide⟩
  · intro bs v s e x
    simp only [checkAvailability, Bool.not_eq_true', List.any_eq_false,
      availQueryMatch, overlapsRange]
    constructor
    · intro h b hb hcase
      obtain ⟨hcar, hstat, hx, h1, h2⟩ := hcase
      refine h b hb ?_
      cases x with
      | none => simp [hcar, hstat, h1, h2]
      | some xid => simp [hcar, hstat, h1, h2, hx xid rfl]
    · intro h b hb hp
      simp only [Bool.and_eq_true, decide_eq_true_eq] at hp
      obtain ⟨⟨⟨hcar, hstat⟩, hm⟩, h1, h2⟩ := hp
      refine h b hb ⟨hcar, hstat, ?_, h1, h2⟩
      intro xid hxid
      subst hxid
      simpa using hm
  · intro bs v s e x h
    simp only [checkAvailability, Bool.not_eq_true', List.any_eq_false,
      availQueryMatch]
    intro b hb
    simp [h b hb]

/-- Witness for C1: a store holding only a booking on car 5 makes car 9
available on any range. -/
theorem C1_checkAvailability_contract_witness :
    (∀ b ∈ [bC1], b.carId ≠ 9) ∧
      checkAvailability [bC1] 9 0 20 none = true :=
  ⟨by decide, C1_checkAvailability_contract.2.1 [bC1] 9 0 20 none (by decide)⟩

/-! ### More helper lemmas: handler characterizations -/

/-- The customer upsert touches only the customer collection: drivers are
untouched. -/
theorem upsertCustomer_drivers (st : St) (n p : String) (co : Option String)
    (i : String) (now : Int) :
    (upsertCustomer st n p co i now).2.drivers = st.drivers := by
  unfold upsertCustomer
  cases st.customers.find?
      (fun c => decide (c.phoneNumber = p) || decide (c.idCardNumber = i)) <;>
    rfl

/-- The customer upsert touches only the customer collection: bookings are
untouched. -/
theorem upsertCustomer_bookings (st : St) (n p : String) (co : Option String)
    (i : String) (now : Int) :
    (upsertCustomer st n p co i now).2.bookings = st.bookings := by
  unfold upsertCustomer
  cases st.customers.find?
      (fun c => decide (c.phoneNumber = p) || decide (c.idCardNumber = i)) <;>
    rfl

/-- Inversion of a successful save step. -/
theorem saveNewBooking_inv (st1 : St) (r : CreateRequest) (nb : Booking)
    (cust : Customer) (b : Booking) (c : Customer) (st3 : St)
    (h : saveNewBooking st1 r nb cust = (.created b c, st3)) :
    b = nb ∧ c = cust ∧ bookingValid nb = true ∧
      st3.drivers = (if r.driverPreference = some "driver" then
          setDriverAvailable st1.drivers (r.driverId.getD 0) false
        else st1.drivers) := by
  unfold saveNewBooking at h
  split_ifs at h with h1 h2 <;>
    simp only [Prod.mk.injEq, CreateOutcome.created.injEq, reduceCtorEq,
      and_false, false_and] at h
  · obtain ⟨⟨hb, hc⟩, hst⟩ := h
    subst hst
    exact ⟨hb.symm, hc.symm, h1, by rw [if_pos h2]⟩
  · obtain ⟨⟨hb, hc⟩, hst⟩ := h
    subst hst
    exact ⟨hb.symm, hc.symm, h1, by rw [if_neg h2]⟩

/-- Inversion of a successful POST /: the required-field check passed, the
driver existed when one was demanded, the stored booking is the constructed
document, and the driver flags were flipped exactly when the preference was
`'driver'`. -/
theorem createBooking_inv (st : St) (r : CreateRequest) (u : Nat) (now : Int)
    (b : Booking) (c : Customer) (st3 : St)
    (h : createBooking st r u now = (.created b c, st3)) :
    requiredFieldsPresent r = true ∧
      (r.driverPreference = some "driver" →
        st.drivers.any (fun d => decide (d.id = r.driverId.getD 0)) = true) ∧
      (∃ k, b = buildNewBooking r c.id k u) ∧
      bookingValid b = true ∧
      st3.drivers = (if r.driverPreference = some "driver" then
          setDriverAvailable st.drivers (r.driverId.getD 0) false
        else st.drivers) := by
  unfold createBooking at h
  split_ifs at h with h1 h2 h3 h4 h5 h6 <;>
    try simp only [Prod.mk.injEq, reduceCtorEq, and_false, false_and] at h
  obtain ⟨hb, hc, hv, hdr⟩ := saveNewBooking_inv _ _ _ _ _ _ _ h
  subst hb
  subst hc
  refine ⟨by simpa using h1, fun hpref => ?_, ⟨_, rfl⟩, hv, ?_⟩
  · rcases not_and_or.mp h4 with h4 | h4
    · exact absurd hpref h4
    · simpa using h4
  · rw [hdr, upsertCustomer_drivers]

/-- POST / with a falsy required field returns the invalid-input response and
leaves the store unchanged. -/
theorem createBooking_requiredMissing (st : St) (r : CreateRequest) (u : Nat)
    (now : Int) (h : requiredFieldsPresent r = false) :
    createBooking st r u now = (.clientError 400 .allRequiredFields, st) := by
  unfold createBooking
  rw [if_pos (by simp [h])]

/-- PATCH /:bookingId on a booking whose status is not `'active'` returns the
illegal-state response and leaves the store unchanged. -/
theorem editBooking_notActive (st : St) (i : Nat) (r : EditRequest)
    (b : Booking) (hg : getBooking st i = some b)
    (hs : b.status ≠ Status.active) :
    editBooking st i r = (.clientError 400 .onlyActiveEdit, st) := by
  unfold editBooking
  rw [hg]
  simp only [if_pos hs]

/-- PATCH /:bookingId on an active booking with passing driver/license guards
applies the merge update. -/
theorem editBooking_success (st : St) (i : Nat) (r : EditRequest)
    (b : Booking) (hg : getBooking st i = some b)
    (hs : b.status = Status.active)
    (hd : ¬(r.driverPreference = some "driver" ∧ ¬ truthyId r.driverId = true))
    (hl : ¬(r.driverPreference = some "self" ∧
      ¬ truthyS r.customerLicenseNumber = true)) :
    editBooking st i r =
      (.updated (applyEdit b r)
        ((applyEdit b r).totalBill - (applyEdit b r).advancePaid),
       putBooking st i (applyEdit b r)) := by
  unfold editBooking
  rw [hg]
  simp only [hs]
  rw [if_neg (by simp), if_neg (by simpa using hd), if_neg (by simpa using hl)]

/-- Inversion of a successful PATCH /:bookingId. -/
theorem editBooking_inv (st : St) (i : Nat) (r : EditRequest) (b2 : Booking)
    (rem : Rat) (st2 : St)
    (h : editBooking st i r = (.updated b2 rem, st2)) :
    ∃ b, getBooking st i = some b ∧ b.status = Status.active ∧
      b2 = applyEdit b r ∧ rem = b2.totalBill - b2.advancePaid ∧
      st2 = putBooking st i b2 := by
  unfold editBooking at h
  cases hg : getBooking st i with
  | none => rw [hg] at h; simp at h
  | some b =>
    simp only [hg] at h
    by_cases h1 : b.status ≠ Status.active
    · rw [if_pos h1] at h
      simp at h
    · rw [if_neg h1] at h
      by_cases h2 : r.driverPreference = some "driver" ∧
        ¬ truthyId r.driverId = true
      · rw [if_pos h2] at h
        simp at h
      · rw [if_neg h2] at h
        by_cases h3 : r.driverPreference = some "self" ∧
          ¬ truthyS r.customerLicenseNumber = true
        · rw [if_pos h3] at h
          simp at h
        · rw [if_neg h3] at h
          simp only [Prod.mk.injEq, EditOutcome.updated.injEq] at h
          obtain ⟨⟨hb, hrem⟩, hst⟩ := h
          subst hb
          exact ⟨b, rfl, by simpa using h1, rfl, hrem.symm, hst.symm⟩

/-- PATCH /:bookingId/cancel on a booking whose status is not `'active'`
returns the illegal-state response and leaves the store unchanged. -/
theorem cancelBooking_notActive (st : St) (i : Nat) (reason : Option String)
    (u : Nat) (now : Int) (b : Booking) (hg : getBooking st i = some b)
    (hs : b.status ≠ Status.active) :
    cancelBooking st i reason u now =
      (.clientError 400 .onlyActiveCancel, st) := by
  unfold cancelBooking
  rw [hg]
  simp only [if_pos hs]

/-- Inversion of a successful PATCH /:bookingId/cancel. -/
theorem cancelBooking_inv (st : St) (i : Nat) (reason : Option String)
    (u : Nat) (now : Int) (b2 : Booking) (rem refund : Rat) (st2 : St)
    (h : cancelBooking st i reason u now = (.cancelled b2 rem refund, st2)) :
    ∃ b, getBooking st i = some b ∧ b.status = Status.active ∧
      b2 = { b with
        status := Status.cancelled
        cancellationReason := some (jsOrS reason "No reason provided")
        cancelledAt := some now
        cancelledBy := some u } ∧
      rem = b2.totalBill - b2.totalBill * b2.discountPercentage / 100 -
        b2.advancePaid ∧
      refund = b2.advancePaid ∧
      st2 = putBooking
        (if b.driverPreference = "driver" then
          { st with drivers :=
              setDriverAvailable st.drivers (b.driverId.getD 0) true }
         else st) i b2 := by
  unfold cancelBooking at h
  cases hg : getBooking st i with
  | none => rw [hg] at h; simp at h
  | some b =>
    simp only [hg] at h
    split_ifs at h with h1 h2 <;>
      simp only [Prod.mk.injEq, CancelOutcome.cancelled.injEq, reduceCtorEq,
        and_false, false_and] at h
    · obtain ⟨⟨hb, hrem, href⟩, hst⟩ := h
      subst hb
      refine ⟨b, rfl, by simpa using h1, rfl, ?_, href.symm, ?_⟩
      · rw [← hrem]
      · rw [← hst]
        rw [if_pos h2]
    · obtain ⟨⟨hb, hrem, href⟩, hst⟩ := h
      subst hb
      refine ⟨b, rfl, by simpa using h1, rfl, ?_, href.symm, ?_⟩
      · rw [← hrem]
      · rw [← hst]
        rw [if_neg h2]

/-- PATCH /:bookingId/end on a booking whose status is not `'active'` (with
the end-time and meter-reading fields present) returns the illegal-state
response and leaves the store unchanged. -/
theorem endBooking_notActive (st : St) (i : Nat) (r : EndRequest) (u : Nat)
    (now : Int) (b : Booking) (het : r.endTime.isSome = true)
    (hfm : truthyN r.finalMeterReading = true)
    (hg : getBooking st i = some b) (hs : b.status ≠ Status.active) :
    endBooking st i r u now = (.clientError 400 .onlyActiveEnd, st) := by
  unfold endBooking
  obtain ⟨t, ht⟩ := Option.isSome_iff_exists.mp het
  rw [ht]
  rw [if_neg (by simp [hfm])]
  rw [hg]
  simp only [if_pos hs]

/-- Inversion of a successful PATCH /:bookingId/end. -/
theorem endBooking_inv (st : St) (i : Nat) (r : EndRequest) (u : Nat)
    (now : Int) (b2 : Booking) (bill : EndBilling) (st2 : St)
    (h : endBooking st i r u now = (.completed b2 bill, st2)) :
    ∃ b, getBooking st i = some b ∧ b.status = Status.active ∧
      b.meterReading ≤ r.finalMeterReading.getD 0 ∧
      b2 = { b with
        status := Status.completed
        finalMeterReading := r.finalMeterReading
        totalBill := b.totalBill + r.additionalCharges
        additionalCharges := r.additionalCharges
        additionalChargesDescription := r.additionalChargesDescription
        remainingPaymentReceived := r.remainingPayment
        completedAt := some now
        completedBy := some u } ∧
      bill.updatedTotalBill = b.totalBill + r.additionalCharges ∧
      bill.discountedTotal = (b.totalBill + r.additionalCharges) -
        (b.totalBill + r.additionalCharges) * b.discountPercentage / 100 ∧
      bill.finalRemainingBalance = bill.discountedTotal - b.advancePaid -
        r.remainingPayment ∧
      st2 = putBooking
        (if b.driverPreference = "driver" then
          { st with drivers :=
              setDriverAvailable st.drivers (b.driverId.getD 0) true }
         else st) i b2 := by
  unfold endBooking at h
  cases het : r.endTime with
  | none => rw [het] at h; simp at h
  | some t =>
    rw [het] at h
    split_ifs at h with h1 <;>
      simp only [Prod.mk.injEq, reduceCtorEq, and_false, false_and] at h
    cases hg : getBooking st i with
    | none => rw [hg] at h; simp at h
    | some b =>
      simp only [hg] at h
      split_ifs at h with h2 h3 h4 <;>
        simp only [Prod.mk.injEq, EndOutcome.completed.injEq, reduceCtorEq,
          and_false, false_and] at h
      · obtain ⟨⟨hb, hbill⟩, hst⟩ := h
        subst hb
        refine ⟨b, rfl, by simpa using h2, by simpa using h3, rfl, ?_, ?_, ?_,
          ?_⟩
        · rw [← hbill]
        · rw [← hbill]
        · rw [← hbill]
        · rw [← hst]
          rw [if_pos h4]
      · obtain ⟨⟨hb, hbill⟩, hst⟩ := h
        subst hb
        refine ⟨b, rfl, by simpa using h2, by simpa using h3, rfl, ?_, ?_, ?_,
          ?_⟩
        · rw [← hbill]
        · rw [← hbill]
        · rw [← hbill]
        · rw [← hst]
          rw [if_neg h4]

/-- A driver-collection update does not change which booking a lookup finds.
-/
theorem getBooking_driversUpdate (st : St) (drv : List Driver) (i : Nat) :
    getBooking { st with drivers := drv } i = getBooking st i := rfl

/-- Forward run of PATCH /:bookingId/cancel on an active booking: the booking
is stored cancelled, the assigned driver is flipped back to available, and a
driverless booking leaves the driver collection untouched. -/
theorem cancelBooking_active_success (st : St) (i : Nat)
    (reason : Option String) (u : Nat) (now : Int) (b : Booking)
    (hg : getBooking st i = some b) (hs : b.status = Status.active) :
    ∃ b2 rem refund st2,
      cancelBooking st i reason u now = (.cancelled b2 rem refund, st2) ∧
      b2.id = b.id ∧ b2.status = Status.cancelled ∧
      getBooking st2 i = some b2 ∧
      (∀ d, b.driverPreference = "driver" → b.driverId = some d →
        (st.drivers.find? (fun x => decide (x.id = d))).isSome = true →
        driverAvailable st2 d = some true) ∧
      (b.driverPreference ≠ "driver" → st2.drivers = st.drivers) := by
  unfold cancelBooking
  simp only [hg]
  rw [if_neg (by simp [hs])]
  have hid : b.id = i := getBooking_id st i b hg
  by_cases hd : b.driverPreference = "driver"
  · rw [if_pos hd]
    refine ⟨_, _, _, _, rfl, rfl, rfl, ?_, ?_, fun hnd => absurd hd hnd⟩
    · exact getBooking_putBooking _ i b _ (by rw [getBooking_driversUpdate]; exact hg) (by simpa using hid)
    · intro d _ hdid hex
      unfold driverAvailable putBooking
      simp only []
      rw [hdid]
      exact driverAvailable_setDriverAvailable st.drivers d true hex
  · rw [if_neg hd]
    refine ⟨_, _, _, _, rfl, rfl, rfl, ?_, ?_, fun _ => rfl⟩
    · exact getBooking_putBooking _ i b _ hg (by simpa using hid)
    · intro d hdrv _ _
      exact absurd hdrv hd

/-- Forward run of PATCH /:bookingId/end on an active booking with a valid
end time, truthy final meter reading and a non-decreasing odometer: the
booking is stored completed with the recomputed bill, and the driver flag is
flipped exactly as on cancel. -/
theorem endBooking_active_success (st : St) (i : Nat) (r : EndRequest)
    (u : Nat) (now : Int) (b : Booking) (hg : getBooking st i = some b)
    (hs : b.status = Status.active) (het : r.endTime.isSome = true)
    (hfm : truthyN r.finalMeterReading = true)
    (hmeter : ¬ r.finalMeterReading.getD 0 < b.meterReading) :
    ∃ b2 bill st2, endBooking st i r u now = (.completed b2 bill, st2) ∧
      b2.id = b.id ∧ b2.status = Status.completed ∧
      b2.totalBill = b.totalBill + r.additionalCharges ∧
      bill.updatedTotalBill = b.totalBill + r.additionalCharges ∧
      bill.discountAmount =
        (b.totalBill + r.additionalCharges) * b.discountPercentage / 100 ∧
      bill.discountedTotal = (b.totalBill + r.additionalCharges) -
        (b.totalBill + r.additionalCharges) * b.discountPercentage / 100 ∧
      bill.finalRemainingBalance =
        bill.discountedTotal - b.advancePaid - r.remainingPayment ∧
      getBooking st2 i = some b2 ∧
      (∀ d, b.driverPreference = "driver" → b.driverId = some d →
        (st.drivers.find? (fun x => decide (x.id = d))).isSome = true →
        driverAvailable st2 d = some true) ∧
      (b.driverPreference ≠ "driver" → st2.drivers = st.drivers) := by
  unfold endBooking
  obtain ⟨t, ht⟩ := Option.isSome_iff_exists.mp het
  rw [ht]
  rw [if_neg (by simp [hfm])]
  simp only [hg]
  rw [if_neg (by simp [hs]), if_neg hmeter]
  have hid : b.id = i := getBooking_id st i b hg
  by_cases hd : b.driverPreference = "driver"
  · rw [if_pos hd]
    refine ⟨_, _, _, rfl, rfl, rfl, rfl, rfl, rfl, rfl, rfl, ?_, ?_,
      fun hnd => absurd hd hnd⟩
    · exact getBooking_putBooking _ i b _ (by rw [getBooking_driversUpdate]; exact hg) (by simpa using hid)
    · intro d _ hdid hex
      unfold driverAvailable putBooking
      simp only []
      rw [hdid]
      exact driverAvailable_setDriverAvailable st.drivers d true hex
  · rw [if_neg hd]
    refine ⟨_, _, _, rfl, rfl, rfl, rfl, rfl, rfl, rfl, rfl, ?_, ?_,
      fun _ => rfl⟩
    · exact getBooking_putBooking _ i b _ hg (by simpa using hid)
    · intro d hdrv _ _
      exact absurd hdrv hd

/-- Fixture: an active booking with an assigned driver on car 3. -/
def bW : Booking :=
  { id := 1, carId := 3, customerId := 4, driverId := some 6,
    tripType := .withincity, startDate := 0, endDate := 10,
    meterReading := 100, totalBill := 5000, advancePaid := 2000,
    discountPercentage := 0, driverPreference := "driver",
    tripStartTime := "10:00", status := .active }

/-- Fixture: the driver assigned to `bW`, currently unavailable. -/
def dW : Driver := { id := 6, available := false }

/-- Fixture store holding `bW` and `dW`. -/
def stW : St :=
  { cars := [3], drivers := [dW], customers := [], bookings := [bW],
    nextBookingId := 2, nextCustomerId := 1 }

/-- `bW` after `cancelBooking stW 1 none 9 50`. -/
def bWCancelled : Booking :=
  { bW with
    status := Status.cancelled
    cancellationReason := some "No reason provided"
    cancelledAt := some 50
    cancelledBy := some 9 }

/-- The store after `cancelBooking stW 1 none 9 50`. -/
def stWC : St :=
  { stW with
    drivers := [{ id := 6, available := true }]
    bookings := [bWCancelled] }

/-! ### C2 — booking status state machine -/

/-- C2: a booking is created in `'active'` status; edit, cancel and end each
return the illegal-state error and leave the store unchanged on a booking
whose status is not `'active'`; edit never changes the status; cancel stores
the terminal `'cancelled'` status and a second cancel always fails; end
stores the terminal `'completed'` status and a second end always fails. -/
theorem C2_status_state_machine :
    (∀ st r u now b c st2, createBooking st r u now = (.created b c, st2) →
      b.status = Status.active) ∧
    (∀ st i r b, getBooking st i = some b → b.status ≠ Status.active →
      editBooking st i r = (.clientError 400 .onlyActiveEdit, st)) ∧
    (∀ st i reason u now b, getBooking st i = some b →
      b.status ≠ Status.active →
      cancelBooking st i reason u now =
        (.clientError 400 .onlyActiveCancel, st)) ∧
    (∀ st i r u now b, r.endTime.isSome = true →
      truthyN r.finalMeterReading = true → getBooking st i = some b →
      b.status ≠ Status.active →
      endBooking st i r u now = (.clientError 400 .onlyActiveEnd, st)) ∧
    (∀ st i r b2 rem st2, editBooking st i r = (.updated b2 rem, st2) →
      b2.status = Status.active ∧ getBooking st2 i = some b2) ∧
    (∀ st i reason u now b2 rem refund st2,
      cancelBooking st i reason u now = (.cancelled b2 rem refund, st2) →
      b2.status = Status.cancelled ∧ getBooking st2 i = some b2 ∧
      ∀ reason2 u2 now2, cancelBooking st2 i reason2 u2 now2 =
        (.clientError 400 .onlyActiveCancel, st2)) ∧
    (∀ st i r u now b2 bill st2,
      endBooking st i r u now = (.completed b2 bill, st2) →
      b2.status = Status.completed ∧ getBooking st2 i = some b2 ∧
      ∀ r2 u2 now2, r2.endTime.isSome = true →
        truthyN r2.finalMeterReading = true →
        endBooking st2 i r2 u2 now2 =
          (.clientError 400 .onlyActiveEnd, st2)) := by
  refine ⟨?_, ?_, ?_, ?_, ?_, ?_, ?_⟩
  · intro st r u now b c st2 h
    obtain ⟨-, -, ⟨k, hb⟩, -, -⟩ := createBooking_inv st r u now b c st2 h
    subst hb
    rfl
  · intro st i r b hg hs
    exact editBooking_notActive st i r b hg hs
  · intro st i reason u now b hg hs
    exact cancelBooking_notActive st i reason u now b hg hs
  · intro st i r u now b het hfm hg hs
    exact endBooking_notActive st i r u now b het hfm hg hs
  · intro st i r b2 rem st2 h
    obtain ⟨b, hg, hs, hb2, -, hst2⟩ := editBooking_inv st i r b2 rem st2 h
    subst hb2
    subst hst2
    refine ⟨hs, ?_⟩
    exact getBooking_putBooking st i b _ hg
      (by simpa using getBooking_id st i b hg)
  · intro st i reason u now b2 rem refund st2 h
    obtain ⟨b, hg, hs, hb2, -, -, hst2⟩ :=
      cancelBooking_inv st i reason u now b2 rem refund st2 h
    have hid : b.id = i := getBooking_id st i b hg
    have hb2id : b2.id = i := by rw [hb2]; simpa using hid
    have hg2 : getBooking st2 i = some b2 := by
      subst hst2
      by_cases hd : b.driverPreference = "driver"
      · rw [if_pos hd]
        exact getBooking_putBooking _ i b b2
          (by rw [getBooking_driversUpdate]; exact hg) hb2id
      · rw [if_neg hd]
        exact getBooking_putBooking _ i b b2 hg hb2id
    have hstat : b2.status = Status.cancelled := by rw [hb2]
    exact ⟨hstat, hg2, fun reason2 u2 now2 =>
      cancelBooking_notActive st2 i reason2 u2 now2 b2 hg2
        (by rw [hstat]; simp)⟩
  · intro st i r u now b2 bill st2 h
    obtain ⟨b, hg, hs, -, hb2, -, -, -, hst2⟩ :=
      endBooking_inv st i r u now b2 bill st2 h
    have hid : b.id = i := getBooking_id st i b hg
    have hb2id : b2.id = i := by rw [hb2]; simpa using hid
    have hg2 : getBooking st2 i = some b2 := by
      subst hst2
      by_cases hd : b.driverPreference = "driver"
      · rw [if_pos hd]
        exact getBooking_putBooking _ i b b2
          (by rw [getBooking_driversUpdate]; exact hg) hb2id
      · rw [if_neg hd]
        exact getBooking_putBooking _ i b b2 hg hb2id
    have hstat : b2.status = Status.completed := by rw [hb2]
    exact ⟨hstat, hg2, fun r2 u2 now2 het2 hfm2 =>
      endBooking_notActive st2 i r2 u2 now2 b2 het2 hfm2 hg2
        (by rw [hstat]; simp)⟩

/-- Witness for C2: cancelling the active fixture booking stores it
cancelled, and cancelling it a second time fails with the illegal-state
error. -/
theorem C2_status_state_machine_witness :
    cancelBooking stW 1 none 9 50 = (.cancelled bWCancelled 3000 2000, stWC) ∧
      bWCancelled.status = Status.cancelled ∧
      cancelBooking stWC 1 none 9 60 =
        (.clientError 400 .onlyActiveCancel, stWC) :=
  have h := (C2_status_state_machine.2.2.2.2.2.1) stW 1 none 9 50 bWCancelled
    3000 2000 stWC (by norm_num [cancelBooking, getBooking, putBooking,
      setDriverAvailable, stW, bW, dW, bWCancelled, stWC, jsOrS, List.find?])
  ⟨by norm_num [cancelBooking, getBooking, putBooking, setDriverAvailable,
    stW, bW, dW, bWCancelled, stWC, jsOrS, List.find?], h.1, h.2.2 none 9 60⟩

/-! ### C3 — completion billing -/

/-- C3: completing an active booking with additional charges `a` and
remaining payment `r` (given a valid end time, a truthy final meter reading
at least the initial one) stores status `'completed'` and
`totalBill + a`, and reports
`discountedTotal = (totalBill + a) * (1 - discountPercentage / 100)` and
`finalRemainingBalance = discountedTotal - advancePaid - r`. -/
theorem C3_completion_billing (st : St) (i : Nat) (r : EndRequest) (u : Nat)
    (now : Int) (b : Booking) (hg : getBooking st i = some b)
    (hs : b.status = Status.active) (het : r.endTime.isSome = true)
    (hfm : truthyN r.finalMeterReading = true)
    (hmeter : b.meterReading ≤ r.finalMeterReading.getD 0) :
    ∃ b2 bill st2, endBooking st i r u now = (.completed b2 bill, st2) ∧
      b2.status = Status.completed ∧
      b2.totalBill = b.totalBill + r.additionalCharges ∧
      bill.updatedTotalBill = b.totalBill + r.additionalCharges ∧
      bill.discountedTotal = (b.totalBill + r.additionalCharges) *
        (1 - b.discountPercentage / 100) ∧
      bill.finalRemainingBalance = (b.totalBill + r.additionalCharges) *
        (1 - b.discountPercentage / 100) - b.advancePaid -
        r.remainingPayment := by
  obtain ⟨b2, bill, st2, heq, -, hstat, htb, hup, -, hdt, hfr, -, -, -⟩ :=
    endBooking_active_success st i r u now b hg hs het hfm (not_lt.mpr hmeter)
  have hdt2 : bill.discountedTotal = (b.totalBill + r.additionalCharges) *
      (1 - b.discountPercentage / 100) := by
    rw [hdt]
    ring
  exact ⟨b2, bill, st2, heq, hstat, htb, hup, hdt2, by rw [hfr, hdt2]⟩

/-- `bW` after `endBooking stW 1 rEndW 9 99`. -/
def bWEnded : Booking :=
  { bW with
    status := Status.completed
    finalMeterReading := some 150
    totalBill := 5500
    additionalCharges := 500
    remainingPaymentReceived := 1000
    completedAt := some 99
    completedBy := some 9 }

/-- The completion request of the spec scenario: additional charges 500,
remaining payment 1000. -/
def rEndW : EndRequest :=
  { endTime := some 1000, finalMeterReading := some 150,
    additionalCharges := 500, remainingPayment := 1000 }

/-- The store after `endBooking stW 1 rEndW 9 99`. -/
def stWE : St :=
  { stW with
    drivers := [{ id := 6, available := true }]
    bookings := [bWEnded] }

/-- Witness for C3, on the spec scenario `totalBill=5000,
discountPercentage=0, additionalCharges=500, advancePaid=2000,
remainingPayment=1000`: `updatedTotalBill=5500, discountedTotal=5500,
finalRemainingBalance=2500`. -/
theorem C3_completion_billing_witness :
    (∃ b2 bill st2, endBooking stW 1 rEndW 9 99 = (.completed b2 bill, st2) ∧
      b2.status = Status.completed ∧
      b2.totalBill = bW.totalBill + rEndW.additionalCharges ∧
      bill.updatedTotalBill = bW.totalBill + rEndW.additionalCharges ∧
      bill.discountedTotal = (bW.totalBill + rEndW.additionalCharges) *
        (1 - bW.discountPercentage / 100) ∧
      bill.finalRemainingBalance = (bW.totalBill + rEndW.additionalCharges) *
        (1 - bW.discountPercentage / 100) - bW.advancePaid -
        rEndW.remainingPayment) ∧
    endBooking stW 1 rEndW 9 99 =
      (.completed bWEnded ⟨5500, 0, 5500, 2500⟩, stWE) :=
  ⟨C3_completion_billing stW 1 rEndW 9 99 bW
    (by norm_num [getBooking, stW, bW, List.find?]) rfl rfl
    (by norm_num [truthyN, rEndW])
    (by norm_num [bW, rEndW]),
    by norm_num [endBooking, getBooking, putBooking, setDriverAvailable, stW,
      bW, dW, bWEnded, stWE, rEndW, truthyN, List.find?]⟩

/-! ### C4 — billing derivation across formatting sites -/

/-- Fixture: a discounted booking (10% on a 100 bill, nothing paid). -/
def bC4 : Booking :=
  { totalBill := 100, discountPercentage := 10, advancePaid := 0 }

/-- C4, counterexample: the `remainingAmount` of the GET / list formatting is
`totalBill - advancePaid` with no discount applied, so on a booking with
`totalBill = 100`, `discountPercentage = 10`, `advancePaid = 0` (within the
claimed ranges) it reports 100 while the claimed shared derivation gives 90 —
the derivation is NOT reproduced identically at every site. -/
theorem C4_counterexample :
    listRemainingAmount bC4 ≠ specRemainingBalance bC4 ∧
      listRemainingAmount bC4 = 100 ∧ specRemainingBalance bC4 = 90 ∧
      0 ≤ bC4.totalBill ∧ 0 ≤ bC4.discountPercentage ∧
      bC4.discountPercentage ≤ 100 := by
  norm_num [listRemainingAmount, specRemainingBalance, bC4]

/-- C4 (amended): the shared derivation
(`discountAmount = totalBill * discountPercentage / 100`,
`discountedTotal = totalBill - discountAmount`,
`remainingBalance = discountedTotal - advancePaid`) is reproduced identically
at the create response (the `remainingBalance` virtual), the status-filtered
list, the detail view, the edit view, and the cancel response; but the GET /
list, the GET /active list, and the PATCH edit response compute
`totalBill - advancePaid`, ignoring the discount — those three sites agree
with the derivation exactly when `discountPercentage = 0`. -/
theorem C4_billing_sites :
    (∀ b : Booking, remainingBalance b = specRemainingBalance b ∧
      statusListRemainingAmount b = specRemainingBalance b ∧
      detailsBillingRemaining b = specRemainingBalance b ∧
      editViewBillingRemaining b = specRemainingBalance b ∧
      remainingBalance b = discountedTotalAmount b - b.advancePaid) ∧
    (∀ st i reason u now b2 rem refund st2,
      cancelBooking st i reason u now = (.cancelled b2 rem refund, st2) →
      rem = specRemainingBalance b2 ∧ refund = b2.advancePaid) ∧
    (∀ b : Booking, listRemainingAmount b = b.totalBill - b.advancePaid ∧
      activeListRemainingAmount b = b.totalBill - b.advancePaid) ∧
    (∀ st i r b2 rem st2, editBooking st i r = (.updated b2 rem, st2) →
      rem = b2.totalBill - b2.advancePaid) ∧
    (∀ b : Booking, b.discountPercentage = 0 →
      listRemainingAmount b = specRemainingBalance b ∧
      activeListRemainingAmount b = specRemainingBalance b) := by
  refine ⟨?_, ?_, ?_, ?_, ?_⟩
  · exact fun b => ⟨rfl, rfl, rfl, rfl, rfl⟩
  · intro st i reason u now b2 rem refund st2 h
    obtain ⟨b, -, -, -, hrem, href, -⟩ :=
      cancelBooking_inv st i reason u now b2 rem refund st2 h
    exact ⟨hrem, href⟩
  · exact fun b => ⟨rfl, rfl⟩
  · intro st i r b2 rem st2 h
    obtain ⟨b, -, -, -, hrem, -⟩ := editBooking_inv st i r b2 rem st2 h
    exact hrem
  · intro b h
    constructor <;> simp [listRemainingAmount, activeListRemainingAmount,
      specRemainingBalance, h]

/-- Witness for C4: on the zero-discount fixture booking the list formatting
agrees with the derivation, and the cancel response of the fixture store
reports the derivation value. -/
theorem C4_billing_sites_witness :
    bW.discountPercentage = 0 ∧
      listRemainingAmount bW = specRemainingBalance bW ∧
      cancelBooking stW 1 none 9 50 =
        (.cancelled bWCancelled 3000 2000, stWC) ∧
      (3000 : Rat) = specRemainingBalance bWCancelled :=
  have hc : cancelBooking stW 1 none 9 50 =
      (.cancelled bWCancelled 3000 2000, stWC) := by
    norm_num [cancelBooking, getBooking, putBooking, setDriverAvailable, stW,
      bW, dW, bWCancelled, stWC, jsOrS, List.find?]
  ⟨rfl, (C4_billing_sites.2.2.2.2 bW rfl).1, hc,
    (C4_billing_sites.2.1 stW 1 none 9 50 bWCancelled 3000 2000 stWC hc).1⟩

/-! ### C5 — edit as a partial update -/

/-- Fixture: an active self-drive within-city booking on car 3. -/
def bC5 : Booking :=
  { id := 1, carId := 3, customerId := 4, tripType := .withincity,
    startDate := 0, endDate := 10, meterReading := 100, totalBill := 1000,
    advancePaid := 200, driverPreference := "self",
    customerLicenseNumber := some "LIC", tripStartTime := "10:00",
    status := .active }

/-- Fixture store holding `bC5`. -/
def stC5 : St := { cars := [3], bookings := [bC5], nextBookingId := 2 }

/-- An edit request supplying ONLY a new total bill. -/
def rC5 : EditRequest := { totalBill := some 1500 }

/-- What the PATCH stores for `bC5` under `rC5`: the bill changes as
requested, but the trip type is silently rewritten to `'outofcity'`. -/
def bC5e : Booking := { bC5 with tripType := .outofcity, totalBill := 1500 }

/-- The store after `editBooking stC5 1 rC5`. -/
def stC5e : St := { stC5 with bookings := [bC5e] }

/-- C5, counterexample: a PATCH of an active booking that supplies only
`totalBill` also changes `tripType` (from `'withincity'` to `'outofcity'`),
because the update object always writes
`tripType === 'within-city' ? 'withincity' : 'outofcity'` — so the updated
booking does not differ from the stored one exactly in the fields present in
the request. -/
theorem C5_counterexample :
    editBooking stC5 1 rC5 = (.updated bC5e 1300, stC5e) ∧
      rC5.tripType = none ∧ bC5.tripType = TripType.withincity ∧
      bC5e.tripType = TripType.outofcity ∧ bC5e.tripType ≠ bC5.tripType := by
  refine ⟨?_, rfl, rfl, rfl, by decide⟩
  norm_num [editBooking, getBooking, stC5, bC5, rC5, bC5e, stC5e, applyEdit,
    jsOrN, jsOrS, jsOrOS, truthyId, truthyS, putBooking, List.find?,
    reduceCtorEq]
  simp

/-- C5 (amended): for every PATCH of an active booking (passing the driver
and license guards), the update follows the partial-update merge for the
scalar fields — `startDate`/`endDate` retain the prior value when absent and
take the request value when supplied; `meterReading`, `totalBill`,
`advancePaid`, `discountPercentage`, `discountReference`, `tripStartTime`,
`tripDescription` and `driverPreference` retain the prior value when absent
OR when the supplied value is the falsy 0 / empty string (the `||`
defaulting) and take any other supplied value; `driverId` is written only
when the request sets `driverPreference = 'driver'` and
`customerLicenseNumber` only when it sets `'self'`, both retained otherwise
(in particular when `driverPreference` is absent) — but `tripType` is ALWAYS
overwritten: `'withincity'` exactly when the request sends
`tripType = 'within-city'` and `'outofcity'` for any other or absent
tripType, and `cityName` is written only when the request tripType is
`'out-of-city'` with a city value present, retained otherwise; the identity
and status fields keep their stored values. -/
theorem C5_edit_partial_update (st : St) (i : Nat) (r : EditRequest)
    (b : Booking) (hg : getBooking st i = some b)
    (hs : b.status = Status.active)
    (hd : ¬(r.driverPreference = some "driver" ∧
      ¬ truthyId r.driverId = true))
    (hl : ¬(r.driverPreference = some "self" ∧
      ¬ truthyS r.customerLicenseNumber = true)) :
    ∃ b2 st2, editBooking st i r =
      (.updated b2 (b2.totalBill - b2.advancePaid), st2) ∧
      (r.tripType = some "within-city" →
        b2.tripType = TripType.withincity) ∧
      (r.tripType ≠ some "within-city" →
        b2.tripType = TripType.outofcity) ∧
      (r.tripType ≠ some "out-of-city" → b2.cityName = b.cityName) ∧
      (r.tripType = some "out-of-city" → r.cityName = none →
        b2.cityName = b.cityName) ∧
      (∀ c, r.tripType = some "out-of-city" → r.cityName = some c →
        b2.cityName = some c) ∧
      b2.status = b.status ∧ b2.id = b.id ∧ b2.carId = b.carId ∧
      b2.customerId = b.customerId ∧ b2.bookedBy = b.bookedBy ∧
      (r.startDate = none → b2.startDate = b.startDate) ∧
      (∀ v, r.startDate = some v → b2.startDate = v) ∧
      (r.endDate = none → b2.endDate = b.endDate) ∧
      (∀ v, r.endDate = some v → b2.endDate = v) ∧
      (r.meterReading = none ∨ r.meterReading = some 0 →
        b2.meterReading = b.meterReading) ∧
      (∀ v, r.meterReading = some v → v ≠ 0 → b2.meterReading = v) ∧
      (r.totalBill = none ∨ r.totalBill = some 0 →
        b2.totalBill = b.totalBill) ∧
      (∀ v, r.totalBill = some v → v ≠ 0 → b2.totalBill = v) ∧
      (r.advancePaid = none ∨ r.advancePaid = some 0 →
        b2.advancePaid = b.advancePaid) ∧
      (∀ v, r.advancePaid = some v → v ≠ 0 → b2.advancePaid = v) ∧
      (r.discountPercentage = none ∨ r.discountPercentage = some 0 →
        b2.discountPercentage = b.discountPercentage) ∧
      (∀ v, r.discountPercentage = some v → v ≠ 0 →
        b2.discountPercentage = v) ∧
      (r.discountReference = none ∨ r.discountReference = some "" →
        b2.discountReference = b.discountReference) ∧
      (∀ sv, r.discountReference = some sv → sv ≠ "" →
        b2.discountReference = some sv) ∧
      (r.tripStartTime = none ∨ r.tripStartTime = some "" →
        b2.tripStartTime = b.tripStartTime) ∧
      (∀ sv, r.tripStartTime = some sv → sv ≠ "" →
        b2.tripStartTime = sv) ∧
      (r.tripDescription = none ∨ r.tripDescription = some "" →
        b2.tripDescription = b.tripDescription) ∧
      (∀ sv, r.tripDescription = some sv → sv ≠ "" →
        b2.tripDescription = some sv) ∧
      (r.driverPreference = none ∨ r.driverPreference = some "" →
        b2.driverPreference = b.driverPreference) ∧
      (∀ sv, r.driverPreference = some sv → sv ≠ "" →
        b2.driverPreference = sv) ∧
      (r.driverPreference ≠ some "driver" → b2.driverId = b.driverId) ∧
      (∀ d, r.driverPreference = some "driver" → r.driverId = some d →
        b2.driverId = some d) ∧
      (r.driverPreference ≠ some "self" →
        b2.customerLicenseNumber = b.customerLicenseNumber) ∧
      (∀ sv, r.driverPreference = some "self" →
        r.customerLicenseNumber = some sv →
        b2.customerLicenseNumber = some sv) := by
  refine ⟨applyEdit b r, putBooking st i (applyEdit b r),
    editBooking_success st i r b hg hs hd hl, ?_, ?_, ?_, ?_, ?_, rfl, rfl,
    rfl, rfl, rfl, ?_, ?_, ?_, ?_, ?_, ?_, ?_, ?_, ?_, ?_, ?_, ?_, ?_, ?_,
    ?_, ?_, ?_, ?_, ?_, ?_, ?_, ?_, ?_, ?_⟩
  · intro h
    simp [applyEdit, h]
  · intro h
    simp [applyEdit, h]
  · intro h
    simp [applyEdit, h]
  · intro h hc
    simp [applyEdit, h, hc]
  · intro c h hc
    simp [applyEdit, h, hc]
  · intro h
    simp [applyEdit, h]
  · intro v h
    simp [applyEdit, h]
  · intro h
    simp [applyEdit, h]
  · intro v h
    simp [applyEdit, h]
  · intro h
    rcases h with h | h <;> simp [applyEdit, jsOrN, h]
  · intro v h hne
    simp [applyEdit, jsOrN, h, hne]
  · intro h
    rcases h with h | h <;> simp [applyEdit, jsOrN, h]
  · intro v h hne
    simp [applyEdit, jsOrN, h, hne]
  · intro h
    rcases h with h | h <;> simp [applyEdit, jsOrN, h]
  · intro v h hne
    simp [applyEdit, jsOrN, h, hne]
  · intro h
    rcases h with h | h <;> simp [applyEdit, jsOrN, h]
  · intro v h hne
    simp [applyEdit, jsOrN, h, hne]
  · intro h
    rcases h with h | h <;> simp [applyEdit, jsOrOS, h]
  · intro sv h hne
    simp [applyEdit, jsOrOS, h, hne]
  · intro h
    rcases h with h | h <;> simp [applyEdit, jsOrS, h]
  · intro sv h hne
    simp [applyEdit, jsOrS, h, hne]
  · intro h
    rcases h with h | h <;> simp [applyEdit, jsOrOS, h]
  · intro sv h hne
    simp [applyEdit, jsOrOS, h, hne]
  · intro h
    rcases h with h | h <;> simp [applyEdit, jsOrS, h]
  · intro sv h hne
    simp [applyEdit, jsOrS, h, hne]
  · intro h
    simp [applyEdit, h]
  · intro d h hdid
    simp [applyEdit, h, hdid]
  · intro h
    simp [applyEdit, h]
  · intro sv h hc
    simp [applyEdit, h, hc]

/-- Witness for C5: the fixture edit request (only `totalBill`) on the
fixture store keeps the stored city/status/identity and advance, takes the
new bill, but flips the trip type to `'outofcity'`. -/
theorem C5_edit_partial_update_witness :
    ∃ b2 st2, editBooking stC5 1 rC5 =
      (.updated b2 (b2.totalBill - b2.advancePaid), st2) ∧
      b2.tripType = TripType.outofcity ∧ b2.cityName = bC5.cityName ∧
      b2.status = bC5.status ∧ b2.totalBill = 1500 ∧
      b2.advancePaid = bC5.advancePaid := by
  obtain ⟨b2, st2, heq, h1, h2, h3, h4, h5, hstat, hid, hcar, hcust, hbook,
    rest⟩ :=
    C5_edit_partial_update stC5 1 rC5 bC5
      (by norm_num [getBooking, stC5, bC5, List.find?]) rfl (by decide)
      (by decide)
  refine ⟨b2, st2, heq, h2 (by decide), h3 (by decide), hstat, ?_, ?_⟩
  · exact rest.2.2.2.2.2.2.2.1 1500 rfl (by norm_num)
  · exact rest.2.2.2.2.2.2.2.2.1 (Or.inl rfl)

/-! ### C6 — no availability re-check on edit -/

/-- C6: a PATCH of an active booking that supplies a new start and/or end
date performs no availability check: it succeeds with the new range stored
even when another active booking on the same vehicle overlaps that range. -/
theorem C6_edit_no_availability_check (st : St) (i : Nat) (r : EditRequest)
    (b : Booking) (hg : getBooking st i = some b)
    (hs : b.status = Status.active)
    (hd : ¬(r.driverPreference = some "driver" ∧
      ¬ truthyId r.driverId = true))
    (hl : ¬(r.driverPreference = some "self" ∧
      ¬ truthyS r.customerLicenseNumber = true))
    (_hconflict : ∃ b3, b3 ∈ st.bookings ∧ b3.id ≠ b.id ∧
      b3.carId = b.carId ∧ b3.status = Status.active ∧
      b3.startDate ≤ r.endDate.getD b.endDate ∧
      r.startDate.getD b.startDate ≤ b3.endDate) :
    ∃ b2 st2, editBooking st i r =
      (.updated b2 (b2.totalBill - b2.advancePaid), st2) ∧
      b2.startDate = r.startDate.getD b.startDate ∧
      b2.endDate = r.endDate.getD b.endDate := by
  exact ⟨applyEdit b r, putBooking st i (applyEdit b r),
    editBooking_success st i r b hg hs hd hl, rfl, rfl⟩

/-- Fixture: a second active booking on car 3 over the days 20..30. -/
def bC6 : Booking :=
  { id := 2, carId := 3, customerId := 5, tripType := .withincity,
    startDate := 20, endDate := 30, meterReading := 100, totalBill := 700,
    advancePaid := 100, driverPreference := "self",
    customerLicenseNumber := some "LIC2", tripStartTime := "11:00",
    status := .active }

/-- Fixture store holding `bC5` and the conflicting `bC6`. -/
def stC6 : St := { cars := [3], bookings := [bC5, bC6], nextBookingId := 3 }

/-- An edit request moving `bC5` squarely onto `bC6` (days 25..28). -/
def rC6 : EditRequest := { startDate := some 25, endDate := some 28 }

/-- Witness for C6: the overlapping edit on the fixture store succeeds with
the new dates stored. -/
theorem C6_edit_no_availability_check_witness :
    ∃ b2 st2, editBooking stC6 1 rC6 =
      (.updated b2 (b2.totalBill - b2.advancePaid), st2) ∧
      b2.startDate = rC6.startDate.getD bC5.startDate ∧
      b2.endDate = rC6.endDate.getD bC5.endDate :=
  C6_edit_no_availability_check stC6 1 rC6 bC5
    (by norm_num [getBooking, stC6, bC5, List.find?]) rfl (by decide)
    (by decide)
    ⟨bC6, by simp [stC6], by decide, rfl, rfl, by decide, by decide⟩

/-! ### C7 — driver availability synchronization -/

/-- C7: a successful creation with `driverPreference = "driver"` leaves the
assigned driver's `available` flag false; cancelling or completing such a
booking leaves it true (when the driver record exists); creation, cancel and
completion of `"self"` bookings never change the driver collection. -/
theorem C7_driver_availability :
    (∀ st r u now b c st2 d, createBooking st r u now = (.created b c, st2) →
      r.driverPreference = some "driver" → r.driverId = some d →
      driverAvailable st2 d = some false) ∧
    (∀ st r u now b c st2, createBooking st r u now = (.created b c, st2) →
      r.driverPreference = some "self" → st2.drivers = st.drivers) ∧
    (∀ st i reason u now b d, getBooking st i = some b →
      b.status = Status.active → b.driverPreference = "driver" →
      b.driverId = some d →
      (st.drivers.find? (fun x => decide (x.id = d))).isSome = true →
      ∃ b2 rem refund st2,
        cancelBooking st i reason u now = (.cancelled b2 rem refund, st2) ∧
        driverAvailable st2 d = some true) ∧
    (∀ st i reason u now b, getBooking st i = some b →
      b.status = Status.active → b.driverPreference ≠ "driver" →
      ∃ b2 rem refund st2,
        cancelBooking st i reason u now = (.cancelled b2 rem refund, st2) ∧
        st2.drivers = st.drivers) ∧
    (∀ st i r u now b d, getBooking st i = some b →
      b.status = Status.active → r.endTime.isSome = true →
      truthyN r.finalMeterReading = true →
      ¬ r.finalMeterReading.getD 0 < b.meterReading →
      b.driverPreference = "driver" → b.driverId = some d →
      (st.drivers.find? (fun x => decide (x.id = d))).isSome = true →
      ∃ b2 bill st2, endBooking st i r u now = (.completed b2 bill, st2) ∧
        driverAvailable st2 d = some true) ∧
    (∀ st i r u now b, getBooking st i = some b →
      b.status = Status.active → r.endTime.isSome = true →
      truthyN r.finalMeterReading = true →
      ¬ r.finalMeterReading.getD 0 < b.meterReading →
      b.driverPreference ≠ "driver" →
      ∃ b2 bill st2, endBooking st i r u now = (.completed b2 bill, st2) ∧
        st2.drivers = st.drivers) := by
  refine ⟨?_, ?_, ?_, ?_, ?_, ?_⟩
  · intro st r u now b c st2 d h hpref hdid
    obtain ⟨-, hany, -, -, hdrv⟩ := createBooking_inv st r u now b c st2 h
    rw [if_pos hpref] at hdrv
    have hex : (st.drivers.find?
        (fun x => decide (x.id = r.driverId.getD 0))).isSome = true := by
      rw [List.find?_isSome]
      simpa using hany hpref
    unfold driverAvailable
    rw [hdrv]
    rw [hdid] at hex ⊢
    exact driverAvailable_setDriverAvailable st.drivers d false hex
  · intro st r u now b c st2 h hpref
    obtain ⟨-, -, -, -, hdrv⟩ := createBooking_inv st r u now b c st2 h
    rw [if_neg (by simp [hpref])] at hdrv
    exact hdrv
  · intro st i reason u now b d hg hs hpref hdid hex
    obtain ⟨b2, rem, refund, st2, heq, -, -, -, hdrivers, -⟩ :=
      cancelBooking_active_success st i reason u now b hg hs
    exact ⟨b2, rem, refund, st2, heq, hdrivers d hpref hdid hex⟩
  · intro st i reason u now b hg hs hpref
    obtain ⟨b2, rem, refund, st2, heq, -, -, -, -, hdrivers⟩ :=
      cancelBooking_active_success st i reason u now b hg hs
    exact ⟨b2, rem, refund, st2, heq, hdrivers hpref⟩
  · intro st i r u now b d hg hs het hfm hmeter hpref hdid hex
    obtain ⟨b2, bill, st2, heq, -, -, -, -, -, -, -, -, hdrivers, -⟩ :=
      endBooking_active_success st i r u now b hg hs het hfm hmeter
    exact ⟨b2, bill, st2, heq, hdrivers d hpref hdid hex⟩
  · intro st i r u now b hg hs het hfm hmeter hpref
    obtain ⟨b2, bill, st2, heq, -, -, -, -, -, -, -, -, -, hdrivers⟩ :=
      endBooking_active_success st i r u now b hg hs het hfm hmeter
    exact ⟨b2, bill, st2, heq, hdrivers hpref⟩

/-- Witness for C7: cancelling the fixture booking (driver preference
`"driver"`, driver 6 assigned and present) makes driver 6 available again. -/
theorem C7_driver_availability_witness :
    ∃ b2 rem refund st2,
      cancelBooking stW 1 none 9 50 = (.cancelled b2 rem refund, st2) ∧
      driverAvailable st2 6 = some true :=
  C7_driver_availability.2.2.1 stW 1 none 9 50 bW 6
    (by norm_num [getBooking, stW, bW, List.find?]) rfl rfl rfl (by decide)

/-! ### C8 — revenue rollups and cancelled bookings -/

/-- `sumRevenue` distributes over cons. -/
theorem sumRevenue_cons (a : Booking) (l : List Booking) :
    sumRevenue (a :: l) = revenue a + sumRevenue l := by
  simp [sumRevenue]

/-- Partition of `sumRevenue` along any Boolean filter. -/
theorem sumRevenue_filter_partition (bs : List Booking) (p : Booking → Bool) :
    sumRevenue bs =
      sumRevenue (bs.filter p) + sumRevenue (bs.filter fun b => !(p b)) := by
  induction bs with
  | nil => simp [sumRevenue]
  | cons a t ih =>
    by_cases h : p a
    · rw [sumRevenue_cons, List.filter_cons_of_pos (by simp [h]),
        List.filter_cons_of_neg (by simp [h]), sumRevenue_cons, ih]
      ring
    · rw [sumRevenue_cons, List.filter_cons_of_neg (by simp [h]),
        List.filter_cons_of_pos (by simp [h]), sumRevenue_cons, ih]
      ring

/-- Fixture: a cancelled booking inside the dashboard scope. -/
def bC8 : Booking :=
  { id := 1, carId := 3, customerId := 4, startDate := 5, endDate := 6,
    meterReading := 100, totalBill := 1000, advancePaid := 0,
    discountPercentage := 0, driverPreference := "self",
    tripStartTime := "10:00", status := Status.cancelled }

/-- C8, counterexample: the dashboard revenue rollup
(`currentRevenue`, dashboard.js lines 32-33) has NO status filter, so a store
whose only in-scope booking is cancelled (`totalBill = 1000`, no discount)
reports 1000, while the claimed "sum over exactly the non-cancelled bookings
in scope" is 0. -/
theorem C8_counterexample :
    dashboardCurrentRevenue [bC8] 0 = 1000 ∧
      specTotalRevenue ([bC8].filter fun b => decide (0 ≤ b.startDate)) = 0 ∧
      dashboardCurrentRevenue [bC8] 0 ≠
        specTotalRevenue ([bC8].filter fun b => decide (0 ≤ b.startDate)) ∧
      bC8.status = Status.cancelled := by
  refine ⟨?_, ?_, ?_, rfl⟩ <;>
    norm_num [dashboardCurrentRevenue, specTotalRevenue, sumRevenue, revenue,
      bC8, List.filter]

/-- C8 (amended): the monthly report's `totalRevenue` equals the sum of
`totalBill * (100 - discountPercentage) / 100` over exactly the non-cancelled
bookings in scope, as claimed; but the dashboard rollups
(`currentRevenue`, `lastMonthRevenue` and the 6-month series buckets) sum
over ALL bookings in scope — they exceed the claimed value by exactly the
revenue of the cancelled bookings in scope. -/
theorem C8_revenue_rollups :
    (∀ bs lo hi, monthlyReportTotalRevenue bs lo hi =
      specTotalRevenue (bs.filter (inWindow lo hi))) ∧
    (∀ bs lo, dashboardCurrentRevenue bs lo =
      specTotalRevenue (bs.filter fun b => decide (lo ≤ b.startDate)) +
        sumRevenue ((bs.filter fun b => decide (lo ≤ b.startDate)).filter
          fun b => decide (b.status = Status.cancelled))) ∧
    (∀ bs lo hi, dashboardWindowRevenue bs lo hi =
      specTotalRevenue (bs.filter (inWindow lo hi)) +
        sumRevenue ((bs.filter (inWindow lo hi)).filter
          fun b => decide (b.status = Status.cancelled))) := by
  have key : ∀ scope : List Booking, sumRevenue scope =
      specTotalRevenue scope + sumRevenue (scope.filter
        fun b => decide (b.status = Status.cancelled)) := by
    intro scope
    have h := sumRevenue_filter_partition scope
      (fun b => decide (b.status = Status.cancelled))
    rw [h]
    unfold specTotalRevenue
    have hfun : (fun b : Booking => !(decide (b.status = Status.cancelled))) =
        (fun b : Booking => decide (b.status ≠ Status.cancelled)) := by
      funext b
      simp [decide_not]
    rw [hfun]
    ring
  exact ⟨fun bs lo hi => rfl,
    fun bs lo => key (bs.filter fun b => decide (lo ≤ b.startDate)),
    fun bs lo hi => key (bs.filter (inWindow lo hi))⟩

/-! ### C9 — out-of-city trips: the spelling split -/

/-- Fixture: a creation request spelling its trip type `"outofcity"` — the
spelling the handler's own city-name guard (bookings.js line 71) treats as
the out-of-city trip type — with a city name supplied. -/
def rC9 : CreateRequest :=
  { carId := some 3, tripType := some "outofcity",
    cityName := some "Lahore", startDate := some 0, endDate := some 10,
    meterReading := some 100, totalBill := some 1000,
    advancePaid := some 200, customerName := some "Ali",
    cellNumber := some "0300", idCardNumber := some "35202",
    tripStartTime := some "10:00", driverPreference := some "self",
    customerLicenseNumber := some "LIC" }

/-- Fixture store: car 3, no bookings, no customers. -/
def stC9 : St := { cars := [3] }

/-- What the handler persists for `rC9`: the booking construction
(bookings.js line 109) tests `tripType === "out-of-city"` — a DIFFERENT
spelling from the guard — so the booking is stored within-city with the city
name discarded. -/
def bC9 : Booking :=
  { id := 1, carId := 3, customerId := 1, tripType := TripType.withincity,
    cityName := none, startDate := 0, endDate := 10, meterReading := 100,
    totalBill := 1000, advancePaid := 200, discountPercentage := 0,
    bookedBy := 9, status := Status.active, tripStartTime := "10:00",
    driverPreference := "self", customerLicenseNumber := some "LIC" }

/-- The customer the upsert creates for `rC9`. -/
def cC9 : Customer :=
  { id := 1, fullName := "Ali", phoneNumber := "0300",
    idCardNumber := "35202", bookingCount := 1, lastBookingDate := some 77 }

/-- C9 (code bug): a create request with trip type `"outofcity"` — the
spelling the handler's own city-name guard demands a city for — and a city
name supplied succeeds, but the stored booking has `tripType 'withincity'`
and NO city name: the construction normalizes on the spelling
`"out-of-city"` while the guard checks `"outofcity"`, so the supplied city
is silently discarded and the trip stored as within-city. -/
theorem C9_outofcity_spelling_bug :
    rC9.tripType = some "outofcity" ∧ rC9.cityName = some "Lahore" ∧
      createBooking stC9 rC9 9 77 =
        (.created bC9 cC9, { stC9 with
          customers := [cC9]
          bookings := [bC9]
          nextBookingId := 2
          nextCustomerId := 2 }) ∧
      bC9.tripType = TripType.withincity ∧ bC9.cityName = none := by
  refine ⟨rfl, rfl, ?_, rfl, rfl⟩
  simp [createBooking, requiredFieldsPresent, truthyId, truthyS, truthyN,
    truthyD, checkAvailability, upsertCustomer, saveNewBooking,
    buildNewBooking, bookingValid, rC9, stC9, bC9, cC9, List.find?,
    reduceCtorEq, show isHHMM "10:00" = true from by decide]
  norm_num

/-! ### C10 — zero-valued numeric inputs at creation -/

/-- A truthy optional number is a non-zero value. -/
theorem truthyN_getD_ne_zero (o : Option Rat) (h : truthyN o = true) :
    o.getD 0 ≠ 0 := by
  cases o with
  | none => simp [truthyN] at h
  | some v => simpa [truthyN] using h

/-- Fixture: a booking document carrying 0 for the meter reading, total bill
and advance — accepted by the schema constraints (`min: 0`,
`advancePaid ≤ totalBill`). -/
def bC10 : Booking :=
  { id := 1, carId := 3, customerId := 4, tripType := TripType.withincity,
    startDate := 0, endDate := 0, meterReading := 0, totalBill := 0,
    advancePaid := 0, discountPercentage := 0, driverPreference := "self",
    tripStartTime := "10:00", status := Status.active }

/-- C10: a create request in which `meterReading`, `totalBill` or
`advancePaid` equals 0 is rejected with 400 "All required fields must be
provided" and the store is returned unchanged (no booking or customer record
created or modified), even though the Booking schema itself accepts 0 for
these fields; consequently every booking created through the API has
non-zero meterReading, totalBill and advancePaid. -/
theorem C10_zero_numeric_rejected :
    (∀ st r u now, (r.meterReading = some 0 ∨ r.totalBill = some 0 ∨
        r.advancePaid = some 0) →
      createBooking st r u now = (.clientError 400 .allRequiredFields, st)) ∧
    (∀ st r u now b c st2, createBooking st r u now = (.created b c, st2) →
      b.meterReading ≠ 0 ∧ b.totalBill ≠ 0 ∧ b.advancePaid ≠ 0) ∧
    bookingValid bC10 = true := by
  refine ⟨?_, ?_, ?_⟩
  · intro st r u now h
    apply createBooking_requiredMissing
    rcases h with h | h | h <;> simp [requiredFieldsPresent, truthyN, h]
  · intro st r u now b c st2 h
    obtain ⟨hreq, -, ⟨k, hb⟩, -, -⟩ := createBooking_inv st r u now b c st2 h
    simp only [requiredFieldsPresent, Bool.and_eq_true] at hreq
    subst hb
    exact ⟨truthyN_getD_ne_zero _ hreq.1.1.1.1.1.1.1.2,
      truthyN_getD_ne_zero _ hreq.1.1.1.1.1.1.2,
      truthyN_getD_ne_zero _ hreq.1.1.1.1.1.2⟩
  · norm_num [bookingValid, bC10, truthyS, truthyId,
      show isHHMM "10:00" = true from by decide]
    decide

/-- Fixture: the valid `rC9` request with the advance zeroed out. -/
def rC10 : CreateRequest := { rC9 with advancePaid := some 0 }

/-- Witness for C10: the zero-advance request is rejected with the
required-fields error and the store is unchanged. -/
theorem C10_zero_numeric_rejected_witness :
    rC10.advancePaid = some 0 ∧
      createBooking stC9 rC10 9 77 =
        (.clientError 400 .allRequiredFields, stC9) :=
  ⟨rfl, C10_zero_numeric_rejected.1 stC9 rC10 9 77 (Or.inr (Or.inr rfl))⟩

end CarRental
